import Mathlib

/-!
Verification of the Azure chat-client utility module
(`src/api/utils/azureUtils.js`) against its natural-language specification.

The module is shallowly embedded: JavaScript values that may be `undefined`
are modelled as `Option String`; JavaScript truthiness of a string value
(`!s` is true exactly when the value is `undefined` or the empty string) is
the boolean `jsTruthy`; template-literal interpolation of a possibly
undefined value (which prints the text `undefined`) is `jsInterp`; a thrown
`Error` is the `Except.error` branch carrying the error message.

The HTTP layer (the `axios` dependency) is modelled by its documented
contract: a POST either resolves with a response (2xx), rejects with an
error that carries the server response (non-2xx), or rejects with a
transport-level error carrying no response.  `sendChatMessage` is
parametrised over that layer and additionally returns the list of POST
requests it issued, so that statements about network activity are statable.
-/

/-- JavaScript truthiness of a possibly-undefined string:
`undefined` and `""` are falsy, every other string is truthy. -/
def jsTruthy : Option String → Bool
  | none => false
  | some s => decide (s ≠ "")

/-- Template-literal interpolation: `undefined` prints as the text
"undefined", a string prints verbatim. -/
def jsInterp : Option String → String
  | none => "undefined"
  | some s => s

/-- The value is missing (undefined) or the empty string. -/
def missingOrEmpty (o : Option String) : Prop :=
  o = none ∨ o = some ""

instance (o : Option String) : Decidable (missingOrEmpty o) := by
  unfold missingOrEmpty; infer_instance

/-- Embeds `genAzureEndpoint`: throws when either name is falsy, otherwise
returns the interpolated endpoint URL. -/
def genAzureEndpoint (azureOpenAIApiInstanceName azureOpenAIApiDeploymentName : Option String) :
    Except String String :=
  if !(jsTruthy azureOpenAIApiInstanceName) || !(jsTruthy azureOpenAIApiDeploymentName) then
    .error "Azure OpenAI API instance name and deployment name must be provided."
  else
    .ok ("https://" ++ jsInterp azureOpenAIApiInstanceName ++
      ".openai.azure.com/openai/deployments/" ++ jsInterp azureOpenAIApiDeploymentName)

/-- Embeds `sanitizeModelName`: `modelName.replace(/\./g, '')`, i.e. remove
every literal period character. -/
def sanitizeModelName (modelName : String) : String :=
  String.mk (modelName.data.filter (· != '.'))

/-- The `AzureCredentials` record of the source.  Each field of a
JavaScript object may be `undefined`, hence `Option String`. -/
structure CredRecord where
  azureOpenAIApiKey : Option String
  azureOpenAIApiInstanceName : Option String
  azureOpenAIApiDeploymentName : Option String
  azureOpenAIApiVersion : Option String
deriving DecidableEq

/-- Embeds `genAzureChatCompletion`: destructures the credentials, calls
`genAzureEndpoint`, and appends the chat-completions path with the
api-version query parameter interpolated verbatim.  (The source also logs
the URL; logging is not modelled.) -/
def genAzureChatCompletion (credentials : CredRecord) : Except String String :=
  match genAzureEndpoint credentials.azureOpenAIApiInstanceName
      credentials.azureOpenAIApiDeploymentName with
  | .error e => .error e
  | .ok endpoint =>
      .ok (endpoint ++ "/chat/completions?api-version=" ++
        jsInterp credentials.azureOpenAIApiVersion)

/-- The process environment restricted to the four variables the module
reads; each may be unset. -/
structure Env where
  AZURE_API_KEY : Option String
  AZURE_OPENAI_API_INSTANCE_NAME : Option String
  AZURE_OPENAI_API_DEPLOYMENT_NAME : Option String
  AZURE_OPENAI_API_VERSION : Option String
deriving DecidableEq

/-- Embeds `getAzureCredentials`: builds the credentials record from the
environment, throws "Invalid environment configuration." when any of the
four fields is falsy, otherwise returns the record. -/
def getAzureCredentials (env : Env) : Except String CredRecord :=
  let credentials : CredRecord :=
    { azureOpenAIApiKey := env.AZURE_API_KEY
      azureOpenAIApiInstanceName := env.AZURE_OPENAI_API_INSTANCE_NAME
      azureOpenAIApiDeploymentName := env.AZURE_OPENAI_API_DEPLOYMENT_NAME
      azureOpenAIApiVersion := env.AZURE_OPENAI_API_VERSION }
  if !(jsTruthy credentials.azureOpenAIApiKey) ||
      !(jsTruthy credentials.azureOpenAIApiInstanceName) ||
      !(jsTruthy credentials.azureOpenAIApiDeploymentName) ||
      !(jsTruthy credentials.azureOpenAIApiVersion) then
    .error "Invalid environment configuration."
  else
    .ok credentials

/-- An HTTP response as surfaced by axios: status code, headers, decoded
JSON body (`data`, of an arbitrary type `D`). -/
structure HttpResponse (D : Type) where
  status : Nat
  headers : List (String × String)
  data : D
deriving DecidableEq

/-- The axios contract for one POST: resolve with the response (2xx
status), reject with an error carrying the server response (non-2xx), or
reject with a transport-level error message and no response (the
`error.request`-only case). -/
inductive AxiosOutcome (D : Type) where
  | resolved (response : HttpResponse D)
  | rejectedWithResponse (response : HttpResponse D)
  | rejectedNoResponse (message : String)
deriving DecidableEq

/-- One HTTP POST request as issued by the client: target URL, body
(passed through, of arbitrary type `M`), and headers. -/
structure PostRequest (M : Type) where
  url : String
  body : M
  headers : List (String × String)
deriving DecidableEq

/-- The failures `sendChatMessage` can propagate: a configuration error
(thrown before any network activity), or the re-thrown axios error, which
either carries the server response or only a transport-level message. -/
inductive ChatError (D : Type) where
  | configurationError (message : String)
  | requestErrorResponded (response : HttpResponse D)
  | requestErrorNoResponse (message : String)
deriving DecidableEq

/-- Embeds `sendChatMessage`: load credentials (a throw propagates with no
POST issued), build the endpoint (likewise), issue one POST with the
JSON content type and the Bearer authorization header, return
`response.data` on success and re-throw the axios error on failure.  The
second component is the list of POST requests issued, in order. -/
def sendChatMessage {M D : Type} (env : Env) (http : PostRequest M → AxiosOutcome D)
    (message : M) : Except (ChatError D) D × List (PostRequest M) :=
  match getAzureCredentials env with
  | .error e => (.error (.configurationError e), [])
  | .ok credentials =>
    match genAzureChatCompletion credentials with
    | .error e => (.error (.configurationError e), [])
    | .ok endpoint =>
      let req : PostRequest M :=
        { url := endpoint
          body := message
          headers := [("Content-Type", "application/json"),
                      ("Authorization", "Bearer " ++ jsInterp credentials.azureOpenAIApiKey)] }
      match http req with
      | .resolved response => (.ok response.data, [req])
      | .rejectedWithResponse response => (.error (.requestErrorResponded response), [req])
      | .rejectedNoResponse m => (.error (.requestErrorNoResponse m), [req])

deriving instance DecidableEq for Except

/-- The suffix of `l` after the first occurrence of `marker`, empty when
`marker` does not occur. -/
def dropAfterMarker (marker : List Char) : List Char → List Char
  | [] => []
  | c :: t =>
      if marker.isPrefixOf (c :: t) then (c :: t).drop marker.length
      else dropAfterMarker marker t

/-- The deployment path segment of a produced chat-completion URL: the
text between "/deployments/" and the following slash. -/
def deploymentSegment (url : String) : String :=
  String.mk ((dropAfterMarker ("/deployments/").data url.data).takeWhile (· != '/'))

/-! ### Helper lemmas -/

theorem jsTruthy_eq_false_iff (o : Option String) :
    jsTruthy o = false ↔ missingOrEmpty o := by
  cases o with
  | none => simp [jsTruthy, missingOrEmpty]
  | some s => simp [jsTruthy, missingOrEmpty]

theorem jsTruthy_some_of_ne {s : String} (h : s ≠ "") : jsTruthy (some s) = true := by
  simp [jsTruthy, h]

theorem jsTruthy_eq_true_iff (o : Option String) :
    jsTruthy o = true ↔ ¬ missingOrEmpty o := by
  rw [← jsTruthy_eq_false_iff]
  cases jsTruthy o <;> simp

theorem getAzureCredentials_eq (env : Env) :
    getAzureCredentials env =
      if !(jsTruthy env.AZURE_API_KEY) || !(jsTruthy env.AZURE_OPENAI_API_INSTANCE_NAME) ||
         !(jsTruthy env.AZURE_OPENAI_API_DEPLOYMENT_NAME) ||
         !(jsTruthy env.AZURE_OPENAI_API_VERSION) then
        .error "Invalid environment configuration."
      else
        .ok ⟨env.AZURE_API_KEY, env.AZURE_OPENAI_API_INSTANCE_NAME,
             env.AZURE_OPENAI_API_DEPLOYMENT_NAME, env.AZURE_OPENAI_API_VERSION⟩ := rfl

theorem getAzureCredentials_ok_elim {env : Env} {c : CredRecord}
    (h : getAzureCredentials env = .ok c) :
    c = ⟨env.AZURE_API_KEY, env.AZURE_OPENAI_API_INSTANCE_NAME,
         env.AZURE_OPENAI_API_DEPLOYMENT_NAME, env.AZURE_OPENAI_API_VERSION⟩ ∧
    jsTruthy c.azureOpenAIApiKey = true ∧ jsTruthy c.azureOpenAIApiInstanceName = true ∧
    jsTruthy c.azureOpenAIApiDeploymentName = true ∧ jsTruthy c.azureOpenAIApiVersion = true := by
  rw [getAzureCredentials_eq] at h
  split at h
  · cases h
  · rename_i hcond
    injection h with h
    subst h
    simp only [Bool.or_eq_true, Bool.not_eq_true', not_or, Bool.not_eq_false] at hcond
    obtain ⟨⟨⟨h1, h2⟩, h3⟩, h4⟩ := hcond
    exact ⟨rfl, h1, h2, h3, h4⟩

theorem genAzureChatCompletion_of_truthy (k i d v : Option String)
    (hi : jsTruthy i = true) (hd : jsTruthy d = true) :
    genAzureChatCompletion ⟨k, i, d, v⟩ =
      .ok ("https://" ++ jsInterp i ++ ".openai.azure.com/openai/deployments/" ++ jsInterp d ++
        "/chat/completions?api-version=" ++ jsInterp v) := by
  unfold genAzureChatCompletion genAzureEndpoint
  simp [hi, hd]

theorem length_filter_periods (l : List Char) :
    (l.filter (· != '.')).length = l.length - l.count '.' := by
  induction l with
  | nil => rfl
  | cons a t ih =>
    have hle : t.count '.' ≤ t.length := List.count_le_length '.' t
    by_cases h : a = '.'
    · subst h
      simp [List.filter_cons, List.count_cons, ih]
    · simp [List.filter_cons, List.count_cons, h, ih]
      omega

/-! ### Claim theorems -/

/-- C4: for every pair of non-empty strings, `genAzureEndpoint` returns
exactly "https://{instanceName}.openai.azure.com/openai/deployments/{deploymentName}";
whenever either input is missing or empty it fails with the configuration
error instead of returning a string. -/
theorem genAzureEndpoint_spec (oi od : Option String) :
    (∀ i d, oi = some i → od = some d → i ≠ "" → d ≠ "" →
      genAzureEndpoint oi od =
        .ok ("https://" ++ i ++ ".openai.azure.com/openai/deployments/" ++ d)) ∧
    (missingOrEmpty oi ∨ missingOrEmpty od →
      genAzureEndpoint oi od =
        .error "Azure OpenAI API instance name and deployment name must be provided.") := by
  constructor
  · rintro i d rfl rfl hi hd
    unfold genAzureEndpoint
    rw [if_neg]
    · rfl
    · simp [jsTruthy, hi, hd]
  · intro h
    unfold genAzureEndpoint
    rw [if_pos]
    have : jsTruthy oi = false ∨ jsTruthy od = false := by
      rcases h with h | h
      · exact Or.inl ((jsTruthy_eq_false_iff oi).mpr h)
      · exact Or.inr ((jsTruthy_eq_false_iff od).mpr h)
    rcases this with h' | h' <;> simp [h']

/-- C4 witness: the success case at ("foo", "bar") and the failure case at
an empty instance name. -/
theorem genAzureEndpoint_spec_witness :
    genAzureEndpoint (some "foo") (some "bar") =
      .ok "https://foo.openai.azure.com/openai/deployments/bar" ∧
    genAzureEndpoint (some "") (some "bar") =
      .error "Azure OpenAI API instance name and deployment name must be provided." :=
  ⟨(genAzureEndpoint_spec (some "foo") (some "bar")).1 "foo" "bar" rfl rfl
      (by decide) (by decide),
   (genAzureEndpoint_spec (some "") (some "bar")).2 (Or.inl (Or.inr rfl))⟩

/-- C5: `genAzureChatCompletion` equals `genAzureEndpoint` on the instance
and deployment names with "/chat/completions?api-version={apiVersion}"
appended (the api-version interpolated verbatim, unvalidated), and it fails
with exactly the errors `genAzureEndpoint` fails with. -/
theorem genAzureChatCompletion_spec (c : CredRecord) :
    genAzureChatCompletion c =
      Except.map
        (fun e => e ++ "/chat/completions?api-version=" ++ jsInterp c.azureOpenAIApiVersion)
        (genAzureEndpoint c.azureOpenAIApiInstanceName c.azureOpenAIApiDeploymentName) ∧
    (∀ e, genAzureChatCompletion c = .error e ↔
      genAzureEndpoint c.azureOpenAIApiInstanceName c.azureOpenAIApiDeploymentName =
        .error e) := by
  unfold genAzureChatCompletion
  cases h : genAzureEndpoint c.azureOpenAIApiInstanceName c.azureOpenAIApiDeploymentName <;>
    simp [Except.map]

/-- C5 witness: the composed URL at a concrete credentials record, and
error propagation at a record with a missing instance name. -/
theorem genAzureChatCompletion_spec_witness :
    genAzureChatCompletion ⟨some "x", some "foo", some "bar", some "2023-05-15"⟩ =
      Except.map
        (fun e => e ++ "/chat/completions?api-version=" ++ jsInterp (some "2023-05-15"))
        (genAzureEndpoint (some "foo") (some "bar")) ∧
    genAzureChatCompletion ⟨some "x", none, some "bar", some "v"⟩ =
      .error "Azure OpenAI API instance name and deployment name must be provided." :=
  ⟨(genAzureChatCompletion_spec ⟨some "x", some "foo", some "bar", some "2023-05-15"⟩).1,
   ((genAzureChatCompletion_spec ⟨some "x", none, some "bar", some "v"⟩).2 _).mpr (by decide)⟩

/-- C6: `getAzureCredentials` fails if and only if at least one of the four
environment variables is missing or empty; when all four are non-empty it
returns the record of exactly those four values. -/
theorem getAzureCredentials_spec (env : Env) :
    ((∃ e, getAzureCredentials env = .error e) ↔
      (missingOrEmpty env.AZURE_API_KEY ∨ missingOrEmpty env.AZURE_OPENAI_API_INSTANCE_NAME ∨
       missingOrEmpty env.AZURE_OPENAI_API_DEPLOYMENT_NAME ∨
       missingOrEmpty env.AZURE_OPENAI_API_VERSION)) ∧
    (∀ k i d v, env.AZURE_API_KEY = some k → env.AZURE_OPENAI_API_INSTANCE_NAME = some i →
      env.AZURE_OPENAI_API_DEPLOYMENT_NAME = some d → env.AZURE_OPENAI_API_VERSION = some v →
      k ≠ "" → i ≠ "" → d ≠ "" → v ≠ "" →
      getAzureCredentials env = .ok ⟨some k, some i, some d, some v⟩) := by
  constructor
  · rw [getAzureCredentials_eq]
    constructor
    · intro ⟨e, he⟩
      by_contra hnone
      simp only [not_or] at hnone
      obtain ⟨h1, h2, h3, h4⟩ := hnone
      rw [if_neg] at he
      · cases he
      · simp only [Bool.or_eq_true, Bool.not_eq_true', not_or, Bool.not_eq_false]
        exact ⟨⟨⟨(jsTruthy_eq_true_iff _).mpr h1, (jsTruthy_eq_true_iff _).mpr h2⟩,
          (jsTruthy_eq_true_iff _).mpr h3⟩, (jsTruthy_eq_true_iff _).mpr h4⟩
    · intro h
      refine ⟨"Invalid environment configuration.", ?_⟩
      rw [if_pos]
      rcases h with h | h | h | h <;>
        simp [(jsTruthy_eq_false_iff _).mpr h]
  · intro k i d v hk hi hd hv hk' hi' hd' hv'
    rw [getAzureCredentials_eq, hk, hi, hd, hv, if_neg]
    simp [jsTruthy_some_of_ne, hk', hi', hd', hv']

/-- C6 witness: success when all four variables are set non-empty, failure
when the key is unset. -/
theorem getAzureCredentials_spec_witness :
    getAzureCredentials ⟨some "k", some "foo", some "bar", some "v"⟩ =
      .ok ⟨some "k", some "foo", some "bar", some "v"⟩ ∧
    (missingOrEmpty (none : Option String) ∨ missingOrEmpty (some "foo") ∨
      missingOrEmpty (some "bar") ∨ missingOrEmpty (some "v")) ∧
    ∃ e, getAzureCredentials ⟨none, some "foo", some "bar", some "v"⟩ = .error e :=
  ⟨(getAzureCredentials_spec ⟨some "k", some "foo", some "bar", some "v"⟩).2
      "k" "foo" "bar" "v" rfl rfl rfl rfl (by decide) (by decide) (by decide) (by decide),
   Or.inl (Or.inl rfl),
   ((getAzureCredentials_spec ⟨none, some "foo", some "bar", some "v"⟩).1).mpr
      (Or.inl (Or.inl rfl))⟩

/-- C7: `sanitizeModelName` yields a string with no period, of length equal
to the input length minus the number of periods, performing no
transformation other than removing periods (the output characters are
exactly the non-period input characters); in particular
sanitizeModelName "gpt-3.5.turbo" = "gpt-35turbo". -/
theorem sanitizeModelName_spec (s : String) :
    (∀ c ∈ (sanitizeModelName s).data, c ≠ '.') ∧
    (sanitizeModelName s).length = s.length - s.data.count '.' ∧
    (sanitizeModelName s).data = s.data.filter (· != '.') ∧
    sanitizeModelName "gpt-3.5.turbo" = "gpt-35turbo" := by
  refine ⟨?_, ?_, rfl, by decide⟩
  · intro c hc
    have h := List.of_mem_filter hc
    simpa using h
  · exact length_filter_periods s.data

/-- C7 witness: the no-period and length properties evaluated at
"gpt-3.5.turbo". -/
theorem sanitizeModelName_spec_witness :
    ('g' : Char) ≠ '.' ∧
    (sanitizeModelName "gpt-3.5.turbo").length =
      ("gpt-3.5.turbo" : String).length - ("gpt-3.5.turbo" : String).data.count '.' ∧
    sanitizeModelName "gpt-3.5.turbo" = "gpt-35turbo" :=
  ⟨(sanitizeModelName_spec "gpt-3.5.turbo").1 'g' (by decide),
   (sanitizeModelName_spec "gpt-3.5.turbo").2.1,
   (sanitizeModelName_spec "gpt-3.5.turbo").2.2.2⟩

/-- C10: `sanitizeModelName` is idempotent, and its output is the
subsequence of the input obtained by deleting exactly the periods (every
non-period character preserved in its original relative order). -/
theorem sanitizeModelName_idempotent_subsequence (s : String) :
    sanitizeModelName (sanitizeModelName s) = sanitizeModelName s ∧
    List.Sublist (sanitizeModelName s).data s.data ∧
    (sanitizeModelName s).data = s.data.filter (· != '.') := by
  refine ⟨?_, List.filter_sublist s.data, rfl⟩
  have h1 : (s.data.filter (· != '.')).filter (· != '.') = s.data.filter (· != '.') :=
    List.filter_eq_self.mpr (fun a ha => (List.mem_filter.mp ha).2)
  exact congrArg String.mk h1

/-- C8 counterexample: with deployment name "gpt-3.5" (which contains a
period), the URL constructed by `genAzureChatCompletion` carries the
deployment name verbatim — its deployment path segment is "gpt-3.5", which
still contains a period — so `sanitizeModelName` (which would have produced
"gpt-35") is not applied before the identifier is placed in the URL path. -/
theorem genAzureChatCompletion_period_counterexample :
    genAzureChatCompletion ⟨some "k", some "foo", some "gpt-3.5", some "2023-05-15"⟩ =
      .ok "https://foo.openai.azure.com/openai/deployments/gpt-3.5/chat/completions?api-version=2023-05-15" ∧
    deploymentSegment
        "https://foo.openai.azure.com/openai/deployments/gpt-3.5/chat/completions?api-version=2023-05-15" =
      "gpt-3.5" ∧
    ("gpt-3.5" : String).data.count '.' ≠ 0 ∧
    sanitizeModelName "gpt-3.5" = "gpt-35" := by
  exact ⟨by decide, by decide, by decide, by decide⟩

/-- C8 amended: `genAzureChatCompletion` does not apply
`sanitizeModelName`; for every credentials record with non-empty instance
and deployment names, the deployment name is inserted verbatim into the
URL path segment, so a deployment name containing a period yields a URL
whose deployment path segment contains that period. -/
theorem genAzureChatCompletion_verbatim_deployment (k v : Option String) (i d : String)
    (hi : i ≠ "") (hd : d ≠ "") :
    genAzureChatCompletion ⟨k, some i, some d, v⟩ =
      .ok ("https://" ++ i ++ ".openai.azure.com/openai/deployments/" ++ d ++
        "/chat/completions?api-version=" ++ jsInterp v) :=
  genAzureChatCompletion_of_truthy k (some i) (some d) v
    (jsTruthy_some_of_ne hi) (jsTruthy_some_of_ne hd)

/-- C8 amended witness: verbatim insertion at the counterexample's
credentials. -/
theorem genAzureChatCompletion_verbatim_deployment_witness :
    genAzureChatCompletion ⟨some "k", some "foo", some "gpt-3.5", some "2023-05-15"⟩ =
      .ok ("https://" ++ "foo" ++ ".openai.azure.com/openai/deployments/" ++ "gpt-3.5" ++
        "/chat/completions?api-version=" ++ jsInterp (some "2023-05-15")) :=
  genAzureChatCompletion_verbatim_deployment (some "k") (some "2023-05-15") "foo" "gpt-3.5"
    (by decide) (by decide)

/-- C1: whenever credentials load successfully and the HTTP POST resolves
with a successful (2xx) response, `sendChatMessage` returns exactly the
decoded response body (`response.data`), unmodified. -/
theorem sendChatMessage_success {M D : Type} (env : Env) (c : CredRecord)
    (http : PostRequest M → AxiosOutcome D) (message : M) (resp : HttpResponse D)
    (hc : getAzureCredentials env = .ok c)
    (hhttp : ∀ r, http r = .resolved resp)
    (h2xx : 200 ≤ resp.status ∧ resp.status < 300) :
    (sendChatMessage env http message).1 = .ok resp.data := by
  obtain ⟨hcfields, hk, hi, hd, hv⟩ := getAzureCredentials_ok_elim hc
  obtain ⟨k, i, d, v⟩ := c
  simp only [sendChatMessage, hc, genAzureChatCompletion_of_truthy k i d v hi hd, hhttp]

/-- C1 witness: a concrete environment and a mock transport resolving with
status 200 and body 42. -/
theorem sendChatMessage_success_witness :
    (sendChatMessage ⟨some "k", some "foo", some "bar", some "v"⟩
        (fun _ : PostRequest Nat => AxiosOutcome.resolved ⟨200, [], (42 : Nat)⟩) 7).1 =
      .ok 42 :=
  sendChatMessage_success ⟨some "k", some "foo", some "bar", some "v"⟩
    ⟨some "k", some "foo", some "bar", some "v"⟩
    (fun _ => AxiosOutcome.resolved ⟨200, [], 42⟩) 7 ⟨200, [], 42⟩
    (by decide) (fun _ => rfl) (by decide)

/-- C2: whenever credentials load successfully and the HTTP POST fails,
`sendChatMessage` fails with the re-thrown request error: when the server
responded, the error carries the full response (status, headers, body);
when no response was received, it carries the transport message instead;
the two failure modes are distinct error values. -/
theorem sendChatMessage_failure {M D : Type} (env : Env) (c : CredRecord) (message : M)
    (hc : getAzureCredentials env = .ok c) :
    (∀ (http : PostRequest M → AxiosOutcome D) (resp : HttpResponse D),
       (∀ r, http r = .rejectedWithResponse resp) →
       (sendChatMessage env http message).1 = .error (.requestErrorResponded resp)) ∧
    (∀ (http : PostRequest M → AxiosOutcome D) (m : String),
       (∀ r, http r = .rejectedNoResponse m) →
       (sendChatMessage env http message).1 = .error (.requestErrorNoResponse m)) ∧
    (∀ (resp : HttpResponse D) (m : String),
       (ChatError.requestErrorResponded resp : ChatError D) ≠
         ChatError.requestErrorNoResponse m) := by
  obtain ⟨hcfields, hk, hi, hd, hv⟩ := getAzureCredentials_ok_elim hc
  obtain ⟨k, i, d, v⟩ := c
  refine ⟨?_, ?_, ?_⟩
  · intro http resp hhttp
    simp only [sendChatMessage, hc, genAzureChatCompletion_of_truthy k i d v hi hd, hhttp]
  · intro http m hhttp
    simp only [sendChatMessage, hc, genAzureChatCompletion_of_truthy k i d v hi hd, hhttp]
  · intro resp m h
    cases h

/-- C2 witness: a mock endpoint answering HTTP 401 with body 9 yields the
request error carrying status 401, the headers and the body; a transport
failure yields the no-response request error; the two are distinct. -/
theorem sendChatMessage_failure_witness :
    (sendChatMessage ⟨some "k", some "foo", some "bar", some "v"⟩
        (fun _ : PostRequest Nat =>
          AxiosOutcome.rejectedWithResponse ⟨401, [("h", "w")], (9 : Nat)⟩) 7).1 =
      .error (.requestErrorResponded ⟨401, [("h", "w")], 9⟩) ∧
    (sendChatMessage ⟨some "k", some "foo", some "bar", some "v"⟩
        (fun _ : PostRequest Nat =>
          (AxiosOutcome.rejectedNoResponse "ECONNREFUSED" : AxiosOutcome Nat)) 7).1 =
      .error (.requestErrorNoResponse "ECONNREFUSED") ∧
    (ChatError.requestErrorResponded ⟨401, [("h", "w")], (9 : Nat)⟩ ≠
      ChatError.requestErrorNoResponse "ECONNREFUSED") :=
  ⟨(sendChatMessage_failure ⟨some "k", some "foo", some "bar", some "v"⟩
      ⟨some "k", some "foo", some "bar", some "v"⟩ 7 (by decide)).1
      _ ⟨401, [("h", "w")], 9⟩ (fun _ => rfl),
   (sendChatMessage_failure ⟨some "k", some "foo", some "bar", some "v"⟩
      ⟨some "k", some "foo", some "bar", some "v"⟩ 7 (by decide)).2.1
      _ "ECONNREFUSED" (fun _ => rfl),
   (sendChatMessage_failure ⟨some "k", some "foo", some "bar", some "v"⟩
      ⟨some "k", some "foo", some "bar", some "v"⟩ (7 : Nat) (by decide)).2.2
      ⟨401, [("h", "w")], 9⟩ "ECONNREFUSED"⟩

/-- C3: whenever any of the four environment variables is missing or
empty, `sendChatMessage` fails with the configuration error and issues no
HTTP POST at all. -/
theorem sendChatMessage_config_failure {M D : Type} (env : Env)
    (http : PostRequest M → AxiosOutcome D) (message : M)
    (h : missingOrEmpty env.AZURE_API_KEY ∨ missingOrEmpty env.AZURE_OPENAI_API_INSTANCE_NAME ∨
         missingOrEmpty env.AZURE_OPENAI_API_DEPLOYMENT_NAME ∨
         missingOrEmpty env.AZURE_OPENAI_API_VERSION) :
    (sendChatMessage env http message).1 =
      .error (.configurationError "Invalid environment configuration.") ∧
    (sendChatMessage env http message).2 = [] := by
  have herr : getAzureCredentials env = .error "Invalid environment configuration." := by
    rw [getAzureCredentials_eq, if_pos]
    rcases h with h | h | h | h <;> simp [(jsTruthy_eq_false_iff _).mpr h]
  constructor <;> simp only [sendChatMessage, herr]

/-- C3 witness: with the API key unset, the call fails with the
configuration error and the list of issued POSTs is empty. -/
theorem sendChatMessage_config_failure_witness :
    (sendChatMessage ⟨none, some "foo", some "bar", some "v"⟩
        (fun _ : PostRequest Nat => AxiosOutcome.resolved ⟨200, [], (42 : Nat)⟩) 7).1 =
      .error (.configurationError "Invalid environment configuration.") ∧
    (sendChatMessage ⟨none, some "foo", some "bar", some "v"⟩
        (fun _ : PostRequest Nat => AxiosOutcome.resolved ⟨200, [], (42 : Nat)⟩) 7).2 = [] :=
  sendChatMessage_config_failure ⟨none, some "foo", some "bar", some "v"⟩
    (fun _ => AxiosOutcome.resolved ⟨200, [], 42⟩) 7 (Or.inl (Or.inl rfl))

/-- C9: whenever credentials load successfully and the endpoint URL is
built, `sendChatMessage` issues exactly one HTTP POST, to that URL, with
the JSON content type, the Bearer authorization header built from the
loaded API key, and the caller-supplied message as the body, unmodified. -/
theorem sendChatMessage_post_once {M D : Type} (env : Env) (c : CredRecord) (url : String)
    (http : PostRequest M → AxiosOutcome D) (message : M)
    (hc : getAzureCredentials env = .ok c)
    (hu : genAzureChatCompletion c = .ok url) :
    (sendChatMessage env http message).2 =
      [{ url := url, body := message,
         headers := [("Content-Type", "application/json"),
                     ("Authorization", "Bearer " ++ jsInterp c.azureOpenAIApiKey)] }] := by
  simp only [sendChatMessage, hc, hu]
  cases http { url := url, body := message,
               headers := [("Content-Type", "application/json"),
                           ("Authorization", "Bearer " ++ jsInterp c.azureOpenAIApiKey)] } <;>
    rfl

/-- C9 witness: the single POST issued for a concrete environment carries
the composed URL, both headers and the message body 7. -/
theorem sendChatMessage_post_once_witness :
    (sendChatMessage ⟨some "k", some "foo", some "bar", some "v"⟩
        (fun _ : PostRequest Nat => AxiosOutcome.resolved ⟨200, [], (42 : Nat)⟩) 7).2 =
      [{ url := "https://foo.openai.azure.com/openai/deployments/bar/chat/completions?api-version=v",
         body := 7,
         headers := [("Content-Type", "application/json"),
                     ("Authorization", "Bearer " ++ jsInterp (some "k"))] }] :=
  sendChatMessage_post_once ⟨some "k", some "foo", some "bar", some "v"⟩
    ⟨some "k", some "foo", some "bar", some "v"⟩
    "https://foo.openai.azure.com/openai/deployments/bar/chat/completions?api-version=v"
    (fun _ => AxiosOutcome.resolved ⟨200, [], 42⟩) 7 (by decide) (by decide)
